import Mathlib

/-! Shallow embedding of the StratovaBuilds lead-capture pipeline
(`src/app/api/book-call/route.ts`): the client-side form helpers
(`getPhoneDigits`, `formatPhoneNumber`, `isValidEmail`, `isValidStoreUrl`,
`validateForm`, `isFormReady`, `handleChange`, `handleSubmit`) and the
server route (`POST`).  JavaScript strings are modelled as `List Char`;
JS whitespace is restricted to the ASCII whitespace characters, and the
case-insensitive URL regex is modelled with ASCII lowercasing.
-/

set_option autoImplicit false

namespace Stratova

/-- JavaScript strings, modelled as lists of characters. -/
abbrev Str := List Char

/-- Coerce a Lean string literal into the `Str` model. -/
def str (s : String) : Str := s.data

/-- ASCII whitespace, the model of JS `\s` and of the ends trimmed by
`String.prototype.trim`. -/
def isSpace (c : Char) : Bool :=
  c == ' ' || c == '\t' || c == '\n' || c == '\r' || c == '\x0b' || c == '\x0c'

/-- Model of JS `value.trim()`: drop whitespace from both ends. -/
def trim (s : Str) : Str :=
  ((s.dropWhile isSpace).reverse.dropWhile isSpace).reverse

/-- Source `getPhoneDigits`: `value.replace(/\D/g, "").slice(0, 10)`. -/
def getPhoneDigits (s : Str) : Str :=
  (s.filter Char.isDigit).take 10

/-- Source `formatPhoneNumber`: re-insert the `(AAA) BBB-CCCC` mask over the
first at most ten digits. -/
def formatPhoneNumber (s : Str) : Str :=
  let digits := getPhoneDigits s
  if digits.length ≤ 3 then digits
  else if digits.length ≤ 6 then
    '(' :: (digits.take 3 ++ ')' :: ' ' :: digits.drop 3)
  else
    '(' :: (digits.take 3 ++ ')' :: ' ' :: ((digits.drop 3).take 3 ++ '-' :: ((digits.drop 6).take 4)))

/-- Shape of the part of the email regex after trimming: the trimmed string is
`local@domain` with no whitespace, exactly one `@` (local and domain are
`[^\s@]+`), and the domain has a dot that is neither its first nor its last
character (regex `^[^\s@]+@[^\s@]+\.[^\s@]+$`). -/
def emailShape (s : Str) : Bool :=
  let lpart := s.takeWhile (fun c => c ≠ '@')
  let rest := s.dropWhile (fun c => c ≠ '@')
  s.all (fun c => !(isSpace c)) &&
  !lpart.isEmpty &&
  (match rest with
   | [] => false
   | _ :: domain =>
     !domain.isEmpty && domain.all (fun c => c ≠ '@') &&
       decide ('.' ∈ (domain.drop 1).dropLast))

/-- Source `isValidEmail`: test the email regex against the trimmed value. -/
def isValidEmail (s : Str) : Bool := emailShape (trim s)

/-- Shape of the URL regex `^https?:\/\/.+` (case-insensitive) applied to an
already-lowercased string: an `http://` or `https://` head followed by at
least one character that is not a line terminator. -/
def urlShape (s : Str) : Bool :=
  let rest :=
    if s.take 8 == ['h', 't', 't', 'p', 's', ':', '/', '/'] then some (s.drop 8)
    else if s.take 7 == ['h', 't', 't', 'p', ':', '/', '/'] then some (s.drop 7)
    else none
  match rest with
  | none => false
  | some [] => false
  | some (c :: _) => !(c == '\n' || c == '\r')

/-- Source `isValidStoreUrl`: test `/^https?:\/\/.+/i` against the trimmed
value (case-insensitivity modelled by ASCII lowercasing). -/
def isValidStoreUrl (s : Str) : Bool := urlShape ((trim s).map Char.toLower)

/-- The six form fields (`FormValues` in the source). -/
structure FormValues where
  fullName : Str
  phoneNumber : Str
  email : Str
  storeUrl : Str
  revenueStream : Str
  message : Str
deriving DecidableEq

/-- Source `initialFormValues`: every field is the empty string. -/
def initialFormValues : FormValues :=
  { fullName := [], phoneNumber := [], email := [], storeUrl := [],
    revenueStream := [], message := [] }

/-- Per-field error messages (`FormErrors` in the source); `none` means the
field has no recorded error. -/
structure FormErrors where
  fullName : Option Str
  phoneNumber : Option Str
  email : Option Str
  storeUrl : Option Str
  revenueStream : Option Str
  message : Option Str
deriving DecidableEq

/-- The empty `FormErrors` object. -/
def FormErrors.empty : FormErrors :=
  { fullName := none, phoneNumber := none, email := none, storeUrl := none,
    revenueStream := none, message := none }

/-- Source `Object.keys(errors).length === 0`: no field has an error. -/
def FormErrors.isEmptySet (e : FormErrors) : Bool :=
  e.fullName.isNone && e.phoneNumber.isNone && e.email.isNone &&
  e.storeUrl.isNone && e.revenueStream.isNone && e.message.isNone

/-- Source `validateForm`.  Note that the `revenueStream` check tests the raw
value for emptiness (JS truthiness), without trimming. -/
def validateForm (v : FormValues) : FormErrors :=
  { fullName :=
      if (trim v.fullName).isEmpty then some (str "Full name is required.") else none
    phoneNumber :=
      if (trim v.phoneNumber).isEmpty then some (str "Phone number is required.")
      else if (getPhoneDigits v.phoneNumber).length ≠ 10 then
        some (str "Enter a valid 10-digit phone number.")
      else none
    email :=
      if (trim v.email).isEmpty then some (str "Email is required.")
      else if !isValidEmail v.email then some (str "Please enter a valid email.")
      else none
    storeUrl :=
      if !(trim v.storeUrl).isEmpty && !isValidStoreUrl v.storeUrl then
        some (str "Use a full URL, including https://")
      else none
    revenueStream :=
      if v.revenueStream.isEmpty then some (str "Select your revenue stream.") else none
    message := none }

/-- Source `isFormReady`: the advisory readiness predicate derived from the
current field values. -/
def isFormReady (v : FormValues) : Bool :=
  decide (0 < (trim v.fullName).length) &&
  ((getPhoneDigits v.phoneNumber).length == 10) &&
  isValidEmail v.email &&
  ((trim v.storeUrl).isEmpty || isValidStoreUrl v.storeUrl) &&
  decide (0 < (trim v.revenueStream).length)

/-- Names of the six form fields, the keys passed to `handleChange`. -/
inductive FieldKey where
  | fullName | phoneNumber | email | storeUrl | revenueStream | message
deriving DecidableEq

/-- Functional update of one field of `FormValues` (the spread
`{ ...prev, [key]: nextValue }` in `handleChange`). -/
def FormValues.setField (v : FormValues) (k : FieldKey) (x : Str) : FormValues :=
  match k with
  | .fullName => { v with fullName := x }
  | .phoneNumber => { v with phoneNumber := x }
  | .email => { v with email := x }
  | .storeUrl => { v with storeUrl := x }
  | .revenueStream => { v with revenueStream := x }
  | .message => { v with message := x }

/-- Clearing one field's error (the spread `{ ...prev, [key]: undefined }`
in `handleChange`). -/
def FormErrors.clearField (e : FormErrors) (k : FieldKey) : FormErrors :=
  match k with
  | .fullName => { e with fullName := none }
  | .phoneNumber => { e with phoneNumber := none }
  | .email => { e with email := none }
  | .storeUrl => { e with storeUrl := none }
  | .revenueStream => { e with revenueStream := none }
  | .message => { e with message := none }

/-- The React state of one `LeadForm` instance: `values`, `errors`,
`isSubmitting`, `submitted`, `submitError`. -/
structure ClientState where
  values : FormValues
  errors : FormErrors
  isSubmitting : Bool
  submitted : Bool
  submitError : Option Str
deriving DecidableEq

/-- The initial `LeadForm` state. -/
def initialClientState : ClientState :=
  { values := initialFormValues, errors := FormErrors.empty,
    isSubmitting := false, submitted := false, submitError := none }

/-- Source `handleChange`: the `phoneNumber` field is normalized through
`formatPhoneNumber`, every other field is stored raw; the field's error and
the global submit error are cleared. -/
def handleChange (s : ClientState) (k : FieldKey) (value : Str) : ClientState :=
  let nextValue := if k = FieldKey.phoneNumber then formatPhoneNumber value else value
  { s with values := s.values.setField k nextValue,
           errors := s.errors.clearField k,
           submitError := none }

/-- Outcome of the `fetch` call inside `handleSubmit`, as seen by the client:
an OK response, a non-OK response carrying an optional parsed `error` text, or
a thrown transport exception (`isErr` models `instanceof Error`, `msg` the
exception's message). -/
inductive FetchOutcome where
  | ok
  | httpError (errText : Option Str)
  | thrown (isErr : Bool) (msg : Str)
deriving DecidableEq

/-- First half of `handleSubmit` after validation passes: store the (empty)
validation errors, set the in-flight flag, clear the submit error.  This is
the state while the request is in flight. -/
def beginSubmit (s : ClientState) : ClientState :=
  { s with errors := validateForm s.values, isSubmitting := true, submitError := none }

/-- Second half of `handleSubmit`: interpret the fetch outcome, then reset
the in-flight flag in the `finally` block.  A non-OK response throws
`new Error(payload?.error || "Request failed")`, which the `catch` turns
into the submit error; a thrown value that is not an `Error` falls back to
the generic message. -/
def finishSubmit (s : ClientState) (f : FetchOutcome) : ClientState :=
  let s3 :=
    match f with
    | .ok => { s with submitted := true, values := initialFormValues }
    | .httpError errText =>
        let msg :=
          match errText with
          | some m => if m = [] then str "Request failed" else m
          | none => str "Request failed"
        { s with submitError := some msg }
    | .thrown isErr m =>
        let msg :=
          if isErr then m
          else str "Something went wrong. Please try again in a moment."
        { s with submitError := some msg }
  { s3 with isSubmitting := false }

/-- Source `handleSubmit`: run `validateForm`, store the errors, abort when
any error exists; otherwise run the guarded fetch and interpret its outcome. -/
def handleSubmit (s : ClientState) (f : FetchOutcome) : ClientState :=
  let validationErrors := validateForm s.values
  if FormErrors.isEmptySet validationErrors then finishSubmit (beginSubmit s) f
  else { s with errors := validationErrors }

/-- Disabled condition of the submit button:
`disabled={isSubmitting || !isFormReady}`. -/
def submitDisabled (s : ClientState) : Bool :=
  s.isSubmitting || !isFormReady s.values

/-- Server environment: the two environment variables the route reads.  The
empty string models an absent or empty variable (both are falsy in JS). -/
structure Env where
  RESEND_API_KEY : Str
  NEXT_PUBLIC_RESEND_API_KEY : Str
deriving DecidableEq

/-- Source line 15: `process.env.RESEND_API_KEY || process.env.NEXT_PUBLIC_RESEND_API_KEY`. -/
def resolvedApiKey (env : Env) : Str :=
  if env.RESEND_API_KEY ≠ [] then env.RESEND_API_KEY
  else env.NEXT_PUBLIC_RESEND_API_KEY

/-- The parsed JSON request body (`LeadPayload` in the source); `none` models
an absent field. -/
structure LeadPayload where
  fullName : Option Str
  phoneNumber : Option Str
  email : Option Str
  storeUrl : Option Str
  revenueStream : Option Str
  message : Option Str
deriving DecidableEq

/-- Result reported by the external email relay (`resend.emails.send`): either
success, or an error object whose `message` field is `some m` when it is a
string and `none` otherwise. -/
structure RelayError where
  message : Option Str
deriving DecidableEq

/-- Outcome of the relay call, per the collaborator contract. -/
inductive RelayOutcome where
  | success
  | failure (e : RelayError)
deriving DecidableEq

/-- JSON bodies the route can respond with. -/
inductive ResponseBody where
  | jsonError (msg : Str)
  | jsonSuccess
deriving DecidableEq

/-- An HTTP response: status code plus JSON body. -/
structure HttpResponse where
  status : Nat
  body : ResponseBody
deriving DecidableEq

/-- Error message of the unconfigured-relay 500 response. -/
def configErrorMsg : Str :=
  str "Email service is not configured. Set RESEND_API_KEY in your server environment."

/-- Source `POST` handler.  `body` is the result of `request.json()` (`.error m`
models a thrown parse exception with message `m`, caught by the outer
`catch`); `relay` is the external relay's outcome.  Returns the response
paired with whether the relay was invoked. -/
def handlePOST (env : Env) (body : Except Str LeadPayload) (relay : RelayOutcome) :
    HttpResponse × Bool :=
  if resolvedApiKey env = [] then
    (⟨500, .jsonError configErrorMsg⟩, false)
  else
    match body with
    | .error m => (⟨500, .jsonError m⟩, false)
    | .ok b =>
      let fullName := trim (b.fullName.getD [])
      let phoneNumber := trim (b.phoneNumber.getD [])
      let email := trim (b.email.getD [])
      let revenueStream := trim (b.revenueStream.getD [])
      if fullName = [] ∨ phoneNumber = [] ∨ email = [] ∨ revenueStream = [] then
        (⟨400, .jsonError (str "Missing required fields.")⟩, false)
      else
        match relay with
        | .failure e =>
          let resendErrorMessage :=
            match e.message with
            | some m => if m ≠ [] then m else str "Unable to send email."
            | none => str "Unable to send email."
          (⟨502, .jsonError (str "Resend error: " ++ resendErrorMessage)⟩, true)
        | .success => (⟨200, .jsonSuccess⟩, true)

/-- Validity of a payload per the LeadSubmission data model: the same
predicates as the client-side readiness check, applied to the payload's
fields (absent fields default to empty). -/
def LeadPayload.isFullyValid (b : LeadPayload) : Bool :=
  isFormReady
    { fullName := b.fullName.getD [], phoneNumber := b.phoneNumber.getD [],
      email := b.email.getD [], storeUrl := b.storeUrl.getD [],
      revenueStream := b.revenueStream.getD [], message := b.message.getD [] }

/-! Helper lemmas about `trim`, `getPhoneDigits` and the validators. -/

/-- A trimmed string is empty only when every character of the original
string is whitespace. -/
theorem trim_eq_nil (s : Str) (h : trim s = []) : ∀ c ∈ s, isSpace c = true := by
  unfold trim at h
  rw [List.reverse_eq_nil_iff, List.dropWhile_eq_nil_iff] at h
  intro c hc
  rcases List.mem_append.mp ((List.takeWhile_append_dropWhile (p := isSpace) (l := s)) ▸ hc) with h1 | h2
  · exact List.mem_takeWhile_imp h1
  · exact h c (List.mem_reverse.mpr h2)

/-- A string containing a non-whitespace character does not trim to empty. -/
theorem trim_ne_nil_of_mem {s : Str} {c : Char} (hc : c ∈ s) (hns : isSpace c = false) :
    trim s ≠ [] := by
  intro h
  have := trim_eq_nil s h c hc
  rw [hns] at this
  exact Bool.false_ne_true this

/-- Every character of `getPhoneDigits s` is a decimal digit. -/
theorem mem_getPhoneDigits_isDigit {c : Char} {s : Str} (h : c ∈ getPhoneDigits s) :
    c.isDigit = true := by
  unfold getPhoneDigits at h
  exact List.of_mem_filter (List.mem_of_mem_take h)

/-- Decimal digits are not whitespace. -/
theorem isDigit_not_isSpace {c : Char} (h : c.isDigit = true) : isSpace c = false := by
  revert h
  unfold isSpace
  by_contra hcon
  push_neg at hcon
  obtain ⟨h1, h2⟩ := hcon
  rw [Bool.ne_false_iff, Bool.or_eq_true, Bool.or_eq_true, Bool.or_eq_true,
      Bool.or_eq_true, Bool.or_eq_true] at h2
  rcases h2 with ((((hs | hs) | hs) | hs) | hs) | hs <;>
    · rw [beq_iff_eq] at hs
      subst hs
      simp [Char.isDigit] at h1

/-- `getPhoneDigits` produces at most ten characters. -/
theorem getPhoneDigits_length_le (s : Str) : (getPhoneDigits s).length ≤ 10 := by
  unfold getPhoneDigits
  calc ((s.filter Char.isDigit).take 10).length ≤ 10 := List.length_take_le 10 _

/-- When the phone value has ten digits, its trim is non-empty. -/
theorem trim_ne_nil_of_digits {s : Str} (h : (getPhoneDigits s).length = 10) :
    trim s ≠ [] := by
  have hne : getPhoneDigits s ≠ [] := by
    intro h0
    rw [h0] at h
    simp at h
  obtain ⟨c, hc⟩ := List.exists_mem_of_ne_nil _ hne
  have hcs : c ∈ s := by
    have := hc
    unfold getPhoneDigits at this
    exact List.mem_of_mem_filter (List.mem_of_mem_take this)
  exact trim_ne_nil_of_mem hcs (isDigit_not_isSpace (mem_getPhoneDigits_isDigit hc))

/-- A value passing the email regex has a non-empty trim. -/
theorem trim_ne_nil_of_email {s : Str} (h : isValidEmail s = true) : trim s ≠ [] := by
  intro h0
  unfold isValidEmail at h
  rw [h0] at h
  simp [emailShape] at h

/-- Filtering the digits back out of a formatted phone number recovers
exactly the digit sequence the mask was built from. -/
theorem filter_formatPhoneNumber (s : Str) :
    (formatPhoneNumber s).filter Char.isDigit = getPhoneDigits s := by
  have hall : ∀ l : Str, (∀ c ∈ l, c ∈ getPhoneDigits s) → l.filter Char.isDigit = l :=
    fun l hl => List.filter_eq_self.mpr (fun c hc => mem_getPhoneDigits_isDigit (hl c hc))
  have hparen : ¬ Char.isDigit '(' = true := by decide
  have hparen2 : ¬ Char.isDigit ')' = true := by decide
  have hspace : ¬ Char.isDigit ' ' = true := by decide
  have hdash : ¬ Char.isDigit '-' = true := by decide
  simp only [formatPhoneNumber]
  split
  · exact hall _ (fun c hc => hc)
  · split
    · rw [List.filter_cons_of_neg hparen, List.filter_append,
          List.filter_cons_of_neg hparen2, List.filter_cons_of_neg hspace,
          hall _ (fun c hc => List.mem_of_mem_take hc),
          hall _ (fun c hc => List.mem_of_mem_drop hc),
          List.take_append_drop]
    · rw [List.filter_cons_of_neg hparen, List.filter_append,
          List.filter_cons_of_neg hparen2, List.filter_cons_of_neg hspace,
          List.filter_append, List.filter_cons_of_neg hdash,
          hall _ (fun c hc => List.mem_of_mem_take hc),
          hall _ (fun c hc => List.mem_of_mem_drop (List.mem_of_mem_take hc)),
          hall _ (fun c hc => List.mem_of_mem_drop (List.mem_of_mem_take hc))]
      have h6 : (getPhoneDigits s).drop 6 = ((getPhoneDigits s).drop 3).drop 3 := by
        rw [List.drop_drop]
      have h4 : ((getPhoneDigits s).drop 6).take 4 = (getPhoneDigits s).drop 6 := by
        refine List.take_of_length_le ?_
        have := getPhoneDigits_length_le s
        rw [List.length_drop]
        omega
      rw [h4, h6, List.take_append_drop, List.take_append_drop]

/-- Re-extracting the digits from a formatted phone number is the identity
on the digit sequence. -/
theorem getPhoneDigits_formatPhoneNumber (s : Str) :
    getPhoneDigits (formatPhoneNumber s) = getPhoneDigits s := by
  show ((formatPhoneNumber s).filter Char.isDigit).take 10 = getPhoneDigits s
  rw [filter_formatPhoneNumber]
  exact List.take_of_length_le (getPhoneDigits_length_le s)

/-- The formatted output is a function of the extracted digit sequence only. -/
theorem formatPhoneNumber_congr {a b : Str} (h : getPhoneDigits a = getPhoneDigits b) :
    formatPhoneNumber a = formatPhoneNumber b := by
  unfold formatPhoneNumber
  rw [h]

/-- Condition under which `validateForm` records no `fullName` error. -/
theorem validateForm_fullName (v : FormValues) :
    (validateForm v).fullName = none ↔ trim v.fullName ≠ [] := by
  by_cases h : trim v.fullName = []
  · simp [validateForm, h]
  · simp [validateForm, h, List.isEmpty_iff]

/-- Condition under which `validateForm` records no `phoneNumber` error. -/
theorem validateForm_phone (v : FormValues) :
    (validateForm v).phoneNumber = none ↔
      (trim v.phoneNumber ≠ [] ∧ (getPhoneDigits v.phoneNumber).length = 10) := by
  by_cases h : trim v.phoneNumber = []
  · simp [validateForm, h]
  · by_cases h2 : (getPhoneDigits v.phoneNumber).length = 10 <;>
      simp [validateForm, List.isEmpty_iff, h, h2]

/-- Condition under which `validateForm` records no `email` error. -/
theorem validateForm_email (v : FormValues) :
    (validateForm v).email = none ↔ (trim v.email ≠ [] ∧ isValidEmail v.email = true) := by
  by_cases h : trim v.email = []
  · simp [validateForm, h]
  · by_cases h2 : isValidEmail v.email = true <;>
      simp [validateForm, List.isEmpty_iff, h, h2]

/-- Condition under which `validateForm` records no `storeUrl` error. -/
theorem validateForm_storeUrl (v : FormValues) :
    (validateForm v).storeUrl = none ↔
      (trim v.storeUrl = [] ∨ isValidStoreUrl v.storeUrl = true) := by
  by_cases h : trim v.storeUrl = []
  · simp [validateForm, h]
  · by_cases h2 : isValidStoreUrl v.storeUrl = true <;>
      simp [validateForm, List.isEmpty_iff, h, h2]

/-- Condition under which `validateForm` records no `revenueStream` error:
the raw, untrimmed value is non-empty (JS truthiness, no `.trim()`). -/
theorem validateForm_revenue (v : FormValues) :
    (validateForm v).revenueStream = none ↔ v.revenueStream ≠ [] := by
  by_cases h : v.revenueStream = []
  · simp [validateForm, h]
  · simp [validateForm, h, List.isEmpty_iff]

/-- Decomposition of "`validateForm` returns no errors" into the per-field
predicates. -/
theorem isEmptySet_validateForm_iff (v : FormValues) :
    FormErrors.isEmptySet (validateForm v) = true ↔
      (trim v.fullName ≠ [] ∧
       (trim v.phoneNumber ≠ [] ∧ (getPhoneDigits v.phoneNumber).length = 10) ∧
       (trim v.email ≠ [] ∧ isValidEmail v.email = true) ∧
       (trim v.storeUrl = [] ∨ isValidStoreUrl v.storeUrl = true) ∧
       v.revenueStream ≠ []) := by
  have hm : (validateForm v).message = none := rfl
  simp only [FormErrors.isEmptySet, Bool.and_eq_true, Option.isNone_iff_eq_none,
    validateForm_fullName, validateForm_phone, validateForm_email,
    validateForm_storeUrl, validateForm_revenue, hm]
  tauto

/-- Decomposition of `isFormReady` into the per-field predicates. -/
theorem isFormReady_iff (v : FormValues) :
    isFormReady v = true ↔
      (trim v.fullName ≠ [] ∧
       (getPhoneDigits v.phoneNumber).length = 10 ∧
       isValidEmail v.email = true ∧
       (trim v.storeUrl = [] ∨ isValidStoreUrl v.storeUrl = true) ∧
       trim v.revenueStream ≠ []) := by
  simp only [isFormReady, Bool.and_eq_true, Bool.or_eq_true, decide_eq_true_eq,
    beq_iff_eq, List.isEmpty_iff, List.length_pos]
  tauto

/-! Claim theorems. -/

/-- Concrete field values refuting claim C1 as stated: every field satisfies
`validateForm` (in particular the whitespace-only revenue stream is a
non-empty string, hence truthy), yet `isFormReady` trims the revenue stream
and judges the form not ready. -/
def C1cexValues : FormValues :=
  { fullName := str "a", phoneNumber := str "0123456789", email := str "a@b.c",
    storeUrl := [], revenueStream := [' '], message := [] }

/-- C1 counterexample: at `C1cexValues`, `validateForm` returns the empty
error set while `isFormReady` is `false`, so the claimed equivalence fails. -/
theorem C1_counterexample :
    FormErrors.isEmptySet (validateForm C1cexValues) = true ∧
      isFormReady C1cexValues = false := by decide

/-- C1 (amended): for every combination of field values whose revenue stream
is not a non-empty all-whitespace string, `validateForm` returns an empty
error set if and only if `isFormReady` is true.  (The two functions use the
same predicates on the other five fields; on the revenue stream,
`validateForm` tests raw non-emptiness while `isFormReady` tests
non-emptiness after trim, so they agree exactly under this proviso.) -/
theorem C1_validate_empty_iff_ready (v : FormValues)
    (h : v.revenueStream ≠ [] → trim v.revenueStream ≠ []) :
    FormErrors.isEmptySet (validateForm v) = isFormReady v := by
  have h1 := isEmptySet_validateForm_iff v
  have h2 := isFormReady_iff v
  cases hb : FormErrors.isEmptySet (validateForm v) <;>
    cases hr : isFormReady v <;> try rfl
  · rw [hb] at h1
    rw [hr] at h2
    obtain ⟨ha, hp, he, hs, hv⟩ := h2.mp rfl
    refine absurd (h1.mpr ⟨ha, ⟨trim_ne_nil_of_digits hp, hp⟩,
      ⟨trim_ne_nil_of_email he, he⟩, hs, ?_⟩) (by simp)
    intro h0
    exact hv (by rw [h0]; rfl)
  · rw [hb] at h1
    rw [hr] at h2
    obtain ⟨ha, ⟨hpt, hp⟩, ⟨het, he⟩, hs, hv⟩ := h1.mp rfl
    exact absurd (h2.mpr ⟨ha, hp, he, hs, h hv⟩) (by simp)

/-- C1 witness: the amended equivalence instantiated at a concrete form whose
revenue stream is a real bucket label. -/
theorem C1_validate_empty_iff_ready_witness :
    ((C1cexValues.setField FieldKey.revenueStream (str "$0 - $10k/mo")).revenueStream ≠ [] →
      trim (C1cexValues.setField FieldKey.revenueStream (str "$0 - $10k/mo")).revenueStream ≠ []) ∧
    FormErrors.isEmptySet (validateForm (C1cexValues.setField FieldKey.revenueStream (str "$0 - $10k/mo"))) =
      isFormReady (C1cexValues.setField FieldKey.revenueStream (str "$0 - $10k/mo")) :=
  ⟨by decide, C1_validate_empty_iff_ready _ (by decide)⟩

/-- C2: `handleChange` on the `phoneNumber` field stores `formatPhoneNumber`
of the raw input; the digits of the formatted value are the first at most ten
digits of the input (so the output never holds more than ten digits); and the
value is rendered unmasked for 0–3 digits, as the `(AAA) B..`-shaped partial
mask for 4–6 digits, and fully masked as `(AAA) BBB-CCCC` for 7–10 digits. -/
theorem C2_phone_normalizer (s : Str) :
    (∀ st : ClientState,
      (handleChange st FieldKey.phoneNumber s).values.phoneNumber = formatPhoneNumber s) ∧
    (formatPhoneNumber s).filter Char.isDigit = (s.filter Char.isDigit).take 10 ∧
    ((formatPhoneNumber s).filter Char.isDigit).length ≤ 10 ∧
    formatPhoneNumber s =
      (if (getPhoneDigits s).length ≤ 3 then getPhoneDigits s
       else if (getPhoneDigits s).length ≤ 6 then
         '(' :: ((getPhoneDigits s).take 3 ++ ')' :: ' ' :: (getPhoneDigits s).drop 3)
       else
         '(' :: ((getPhoneDigits s).take 3 ++ ')' :: ' ' ::
           (((getPhoneDigits s).drop 3).take 3 ++ '-' :: (((getPhoneDigits s).drop 6).take 4)))) := by
  refine ⟨fun st => rfl, filter_formatPhoneNumber s, ?_, rfl⟩
  rw [filter_formatPhoneNumber]
  exact getPhoneDigits_length_le s

/-- C9: the phone normalizer is idempotent — re-normalizing an
already-masked value is the identity, because `getPhoneDigits` strips the
mask characters back out. -/
theorem C9_phone_normalizer_idempotent (s : Str) :
    formatPhoneNumber (formatPhoneNumber s) = formatPhoneNumber s :=
  formatPhoneNumber_congr (getPhoneDigits_formatPhoneNumber s)

/-- Fully valid payloads have all four required fields non-empty after trim. -/
theorem isFullyValid_not_missing {b : LeadPayload} (hv : b.isFullyValid = true) :
    ¬ (trim (b.fullName.getD []) = [] ∨ trim (b.phoneNumber.getD []) = [] ∨
       trim (b.email.getD []) = [] ∨ trim (b.revenueStream.getD []) = []) := by
  unfold LeadPayload.isFullyValid at hv
  rw [isFormReady_iff] at hv
  obtain ⟨ha, hp, he, _, hr⟩ := hv
  push_neg
  exact ⟨ha, trim_ne_nil_of_digits hp, trim_ne_nil_of_email he, hr⟩

/-- The resolved key is empty exactly when both environment variables are
absent or empty. -/
theorem resolvedApiKey_eq_nil (env : Env) :
    resolvedApiKey env = [] ↔
      (env.RESEND_API_KEY = [] ∧ env.NEXT_PUBLIC_RESEND_API_KEY = []) := by
  by_cases h : env.RESEND_API_KEY = [] <;> simp [resolvedApiKey, h]

/-- Shared concrete data: a server environment holding a relay key. -/
def envK : Env := { RESEND_API_KEY := str "re_key", NEXT_PUBLIC_RESEND_API_KEY := [] }

/-- Shared concrete data: a fully valid set of form values. -/
def validValues : FormValues :=
  { fullName := str "Ada Lovelace", phoneNumber := str "(555) 123-4567",
    email := str "ada@example.com", storeUrl := [],
    revenueStream := str "$0 - $10k/mo", message := [] }

/-- Shared concrete data: a client state holding `validValues`. -/
def validState : ClientState := { initialClientState with values := validValues }

/-- Shared concrete data: the fully valid payload built from `validValues`. -/
def validPayload : LeadPayload :=
  { fullName := some validValues.fullName, phoneNumber := some validValues.phoneNumber,
    email := some validValues.email, storeUrl := none,
    revenueStream := some validValues.revenueStream, message := none }

/-- Shared concrete data: a payload whose four required fields are non-empty
after trim but whose phone number and email fail the client-side shapes. -/
def shapelessPayload : LeadPayload :=
  { fullName := some (str "Bob"), phoneNumber := some (str "123"),
    email := some (str "not-an-email"), storeUrl := some (str "ftp://x"),
    revenueStream := some (str "anything"), message := none }

/-- C3: assuming the relay key is configured and the body parses, the route
answers 400 `Missing required fields.` exactly when one of the four required
fields is empty after trim, and otherwise — with no server-side shape check —
the request proceeds to the relay call. -/
theorem C3_required_fields_400 (env : Env) (relay : RelayOutcome) (b : LeadPayload)
    (hk : resolvedApiKey env ≠ []) :
    ((handlePOST env (.ok b) relay).1 =
        ⟨400, .jsonError (str "Missing required fields.")⟩ ↔
      (trim (b.fullName.getD []) = [] ∨ trim (b.phoneNumber.getD []) = [] ∨
       trim (b.email.getD []) = [] ∨ trim (b.revenueStream.getD []) = [])) ∧
    (¬ (trim (b.fullName.getD []) = [] ∨ trim (b.phoneNumber.getD []) = [] ∨
        trim (b.email.getD []) = [] ∨ trim (b.revenueStream.getD []) = []) →
      (handlePOST env (.ok b) relay).2 = true) := by
  by_cases hm : (trim (b.fullName.getD []) = [] ∨ trim (b.phoneNumber.getD []) = [] ∨
      trim (b.email.getD []) = [] ∨ trim (b.revenueStream.getD []) = [])
  · exact ⟨by simp [handlePOST, hk, hm], fun h => absurd hm h⟩
  · refine ⟨?_, fun _ => ?_⟩ <;> rcases relay with _ | e <;> simp [handlePOST, hk, hm]

/-- C3 witness: with a configured key, a payload whose required fields are
present but whose phone and email are malformed is not rejected and reaches
the relay. -/
theorem C3_required_fields_400_witness :
    resolvedApiKey envK ≠ [] ∧
    (handlePOST envK (.ok shapelessPayload) .success).2 = true :=
  ⟨by decide,
   (C3_required_fields_400 envK .success shapelessPayload (by decide)).2 (by decide)⟩

/-- C4: with no relay key in the environment, the route answers the fixed
configuration 500 and never invokes the relay, for every request body —
parse failures included — because the key check precedes body parsing. -/
theorem C4_unconfigured_500 (env : Env) (body : Except Str LeadPayload)
    (relay : RelayOutcome)
    (h1 : env.RESEND_API_KEY = []) (h2 : env.NEXT_PUBLIC_RESEND_API_KEY = []) :
    handlePOST env body relay = (⟨500, .jsonError configErrorMsg⟩, false) := by
  simp [handlePOST, resolvedApiKey, h1, h2]

/-- C4 witness: the unconfigured environment answers the configuration 500
even for an unparsable body. -/
theorem C4_unconfigured_500_witness :
    (Env.mk [] []).RESEND_API_KEY = [] ∧
    (Env.mk [] []).NEXT_PUBLIC_RESEND_API_KEY = [] ∧
    handlePOST (Env.mk [] []) (.error (str "Unexpected token")) (.failure ⟨none⟩)
      = (⟨500, .jsonError configErrorMsg⟩, false) :=
  ⟨rfl, rfl, C4_unconfigured_500 _ _ _ rfl rfl⟩

/-- C5: when the relay reports an error, the route answers 502 with
`Resend error: <m>`, where `<m>` is the provider message when it is a
non-empty string and `Unable to send email.` otherwise. -/
theorem C5_relay_error_502 (env : Env) (b : LeadPayload) (e : RelayError)
    (hk : resolvedApiKey env ≠ [])
    (hf : ¬ (trim (b.fullName.getD []) = [] ∨ trim (b.phoneNumber.getD []) = [] ∨
         trim (b.email.getD []) = [] ∨ trim (b.revenueStream.getD []) = [])) :
    (handlePOST env (.ok b) (.failure e)).1 =
      ⟨502, .jsonError (str "Resend error: " ++
        (match e.message with
         | some m => if m ≠ [] then m else str "Unable to send email."
         | none => str "Unable to send email."))⟩ := by
  rcases e with ⟨_ | m⟩ <;> simp [handlePOST, hk, hf]

/-- C5 witness: a provider message `quota exceeded` yields exactly
`Resend error: quota exceeded` with status 502. -/
theorem C5_relay_error_502_witness :
    resolvedApiKey envK ≠ [] ∧
    (handlePOST envK (.ok validPayload) (.failure ⟨some (str "quota exceeded")⟩)).1 =
      ⟨502, .jsonError (str "Resend error: quota exceeded")⟩ :=
  ⟨by decide,
   C5_relay_error_502 envK validPayload ⟨some (str "quota exceeded")⟩ (by decide) (by decide)⟩

/-- C6: a fully valid submission with a configured key and a successful relay
yields 200 `{success: true}`; and on an OK response the client marks the form
submitted and resets all six fields to the initial empty values. -/
theorem C6_round_trip (env : Env) (b : LeadPayload) (st : ClientState)
    (hk : resolvedApiKey env ≠ [])
    (hv : b.isFullyValid = true)
    (hcl : FormErrors.isEmptySet (validateForm st.values) = true) :
    (handlePOST env (.ok b) .success).1 = ⟨200, .jsonSuccess⟩ ∧
    (handleSubmit st .ok).submitted = true ∧
    (handleSubmit st .ok).values = initialFormValues := by
  have hm := isFullyValid_not_missing hv
  refine ⟨by simp [handlePOST, hk, hm], ?_, ?_⟩ <;>
    simp [handleSubmit, hcl, beginSubmit, finishSubmit]

/-- C6 witness: the round trip at a concrete fully valid submission. -/
theorem C6_round_trip_witness :
    resolvedApiKey envK ≠ [] ∧
    validPayload.isFullyValid = true ∧
    FormErrors.isEmptySet (validateForm validState.values) = true ∧
    (handlePOST envK (.ok validPayload) .success).1 = ⟨200, .jsonSuccess⟩ ∧
    (handleSubmit validState .ok).submitted = true ∧
    (handleSubmit validState .ok).values = initialFormValues := by
  refine ⟨by decide, by decide, by decide, ?_⟩
  exact C6_round_trip envK validPayload validState (by decide) (by decide) (by decide)

/-- C7 counterexample: a transport failure in which `fetch` threw an `Error`
(as browser network failures do: a `TypeError` with message `Failed to fetch`)
produces that error's message, not the generic fallback the claim states. -/
theorem C7_counterexample :
    (handleSubmit validState (.thrown true (str "Failed to fetch"))).submitError =
      some (str "Failed to fetch") ∧
    str "Failed to fetch" ≠ str "Something went wrong. Please try again in a moment." := by
  decide

/-- C7 (amended): on an HTTP non-success response the outcome message is the
response body's `error` text when present and non-empty, and `Request failed`
otherwise; on a thrown transport exception the outcome message is the thrown
error's own message when the thrown value is an `Error`, and the generic
fallback `Something went wrong. Please try again in a moment.` only when the
thrown value is not an `Error`. -/
theorem C7_failure_outcomes (st : ClientState)
    (hv : FormErrors.isEmptySet (validateForm st.values) = true) :
    (∀ errText : Option Str,
      (handleSubmit st (.httpError errText)).submitError =
        some (match errText with
              | some m => if m = [] then str "Request failed" else m
              | none => str "Request failed")) ∧
    (∀ (isErr : Bool) (m : Str),
      (handleSubmit st (.thrown isErr m)).submitError =
        some (if isErr then m
              else str "Something went wrong. Please try again in a moment.")) := by
  constructor
  · rintro (_ | m) <;> simp [handleSubmit, hv, beginSubmit, finishSubmit]
  · rintro (_ | _) m <;> simp [handleSubmit, hv, beginSubmit, finishSubmit]

/-- C7 witness: the amended mapping at concrete outcomes — a 400 body text is
surfaced verbatim, and a non-`Error` throw gets the generic fallback. -/
theorem C7_failure_outcomes_witness :
    FormErrors.isEmptySet (validateForm validState.values) = true ∧
    (handleSubmit validState (.httpError (some (str "Missing required fields.")))).submitError =
      some (str "Missing required fields.") ∧
    (handleSubmit validState (.thrown false (str "whatever"))).submitError =
      some (str "Something went wrong. Please try again in a moment.") :=
  ⟨by decide,
   (C7_failure_outcomes validState (by decide)).1 (some (str "Missing required fields.")),
   (C7_failure_outcomes validState (by decide)).2 false (str "whatever")⟩

/-- C8: the re-entrancy guard — the in-flight flag is set before the request
is issued, the submit control is disabled whenever the flag is set, and the
flag is reset in the `finally` for every fetch outcome, so the in-flight
state never permits a second submit. -/
theorem C8_reentrancy_guard (st : ClientState) (f : FetchOutcome)
    (hv : FormErrors.isEmptySet (validateForm st.values) = true) :
    (beginSubmit st).isSubmitting = true ∧
    (∀ s : ClientState, s.isSubmitting = true → submitDisabled s = true) ∧
    handleSubmit st f = finishSubmit (beginSubmit st) f ∧
    (handleSubmit st f).isSubmitting = false := by
  refine ⟨rfl, fun s hs => by simp [submitDisabled, hs], ?_, ?_⟩
  · simp [handleSubmit, hv]
  · cases f <;> simp [handleSubmit, hv, beginSubmit, finishSubmit]

/-- C8 witness: the guard at a concrete valid state and a successful fetch. -/
theorem C8_reentrancy_guard_witness :
    FormErrors.isEmptySet (validateForm validState.values) = true ∧
    (beginSubmit validState).isSubmitting = true ∧
    (handleSubmit validState .ok).isSubmitting = false :=
  ⟨by decide, (C8_reentrancy_guard validState .ok (by decide)).1,
   (C8_reentrancy_guard validState .ok (by decide)).2.2.2⟩

/-- C10: the route accepts a key from `RESEND_API_KEY` or, failing that, from
`NEXT_PUBLIC_RESEND_API_KEY`; the unconfigured 500 is produced only when both
are absent or empty, so a key supplied only under the public-prefixed name
counts as a valid configuration. -/
theorem C10_api_key_fallback (env : Env) (b : LeadPayload) (relay : RelayOutcome) :
    (resolvedApiKey env = [] ↔
      (env.RESEND_API_KEY = [] ∧ env.NEXT_PUBLIC_RESEND_API_KEY = [])) ∧
    (env.RESEND_API_KEY ≠ [] → resolvedApiKey env = env.RESEND_API_KEY) ∧
    (env.RESEND_API_KEY = [] → resolvedApiKey env = env.NEXT_PUBLIC_RESEND_API_KEY) ∧
    (∀ body : Except Str LeadPayload, resolvedApiKey env = [] →
      handlePOST env body relay = (⟨500, .jsonError configErrorMsg⟩, false)) ∧
    (resolvedApiKey env ≠ [] →
      (handlePOST env (.ok b) relay).1 ≠ ⟨500, .jsonError configErrorMsg⟩) := by
  refine ⟨resolvedApiKey_eq_nil env, ?_, ?_, ?_, ?_⟩
  · intro h; simp [resolvedApiKey, h]
  · intro h; simp [resolvedApiKey, h]
  · intro body h; simp [handlePOST, h]
  · intro h
    by_cases hm : (trim (b.fullName.getD []) = [] ∨ trim (b.phoneNumber.getD []) = [] ∨
        trim (b.email.getD []) = [] ∨ trim (b.revenueStream.getD []) = []) <;>
      rcases relay with _ | e <;> simp [handlePOST, h, hm]

/-- C10 witness: a key supplied only under the public-prefixed variable does
not produce the unconfigured 500. -/
theorem C10_api_key_fallback_witness :
    resolvedApiKey (Env.mk [] (str "pk")) ≠ [] ∧
    (handlePOST (Env.mk [] (str "pk")) (.ok validPayload) .success).1 ≠
      ⟨500, .jsonError configErrorMsg⟩ :=
  ⟨by decide,
   (C10_api_key_fallback (Env.mk [] (str "pk")) validPayload .success).2.2.2.2 (by decide)⟩

end Stratova
